import Mathlib

/-!
Shallow embedding of the sandboxed spell-execution and event-driven physics
core of `src/arcane_editor.py` (the `MagicEditor` application).

Modelling conventions:
* Panda3D `Vec3` floats are modelled as rationals (`ℚ`); the claims under
  study concern the algebraic structure of the update (order of operations,
  exact costs, the fixed damping factor), not floating-point rounding.
* Python integers (`mana`, `fire`, `water`) are modelled as `ℤ`.
* An orb reference (a Python object reference into `self.orbs`) is modelled
  as an index into the `orbs` list.
* Each operation that can `raise RuntimeError(msg)` is modelled as a function
  returning `Except String …` carrying the exact message from the source;
  the source checks the resource balance before mutating anything, so a
  raising operation returns no state and the caller keeps the old state.
* Following §9 of the design notes, the tick is modelled as a pure step
  `(state, dt) → (state, emitted impact events)`; the inline
  `trigger_event` call of `update_physics` corresponds to dispatching each
  emitted event through the event-bus model `trigger_event` below, which is
  specified separately with real (possibly raising) callbacks.
-/

namespace ArcaneEditor

/-- Three-component vector, mirroring Panda3D `Vec3` with exact arithmetic. -/
structure Vec3 where
  x : ℚ
  y : ℚ
  z : ℚ
deriving DecidableEq

def Vec3.add (a b : Vec3) : Vec3 := ⟨a.x + b.x, a.y + b.y, a.z + b.z⟩

def Vec3.smul (k : ℚ) (a : Vec3) : Vec3 := ⟨k * a.x, k * a.y, k * a.z⟩

/-- Zero vector `Vec3(0, 0, 0)`, the velocity assigned on impact. -/
def Vec3.zero : Vec3 := ⟨0, 0, 0⟩

/-- Element tag an orb can carry (`orb.element` is `None`, `"fire"` or
`"water"` in the source; `Option Element` mirrors that). -/
inductive Element where
  | fire
  | water
deriving DecidableEq

/-- An orb: position and velocity (Entity state) plus the element tag
(`Orb.__init__` sets `element = None`). -/
structure Orb where
  pos : Vec3
  vel : Vec3
  element : Option Element
deriving DecidableEq

/-- The core mutable state of `MagicEditor`: the player's resource ledger
(`Player.__init__`), the player/body-part Entity velocities (mutable via
`apply_force_to`), the player position, the list `self.orbs` that
`update_physics` iterates, and `self.event_handlers` (callback identity
abstracted to `Nat`; the executable callback model lives in the event-bus
section). -/
structure GameState where
  mana : ℤ
  fire : ℤ
  water : ℤ
  playerPos : Vec3
  playerVel : Vec3
  handsVel : Vec3
  feetVel : Vec3
  orbs : List Orb
  handlers : List (String × List Nat)
deriving DecidableEq

/-- Initial state from `Player.__init__` (mana 100, fire 50, water 50) and
`setup_scene` (`player_np.setPos(0, 0, 0.5)`, empty `orbs`, empty
`event_handlers`). -/
def initState : GameState :=
  { mana := 100, fire := 50, water := 50
    playerPos := ⟨0, 0, 1/2⟩
    playerVel := Vec3.zero, handsVel := Vec3.zero, feetVel := Vec3.zero
    orbs := [], handlers := [] }

/-- The fixed spawn offset `Vec3(0, 2, 1)` in `create_orb`. -/
def orbOffset : Vec3 := ⟨0, 2, 1⟩

/-- In-place mutation of the orb a Python reference points at: apply `f` to
the orb at index `i`, leave every other orb untouched (an index past the end
mutates nothing, which no API call can produce: all indices come from
`create_orb`). -/
def updateOrb (orbs : List Orb) (i : Nat) (f : Orb → Orb) : List Orb :=
  match orbs, i with
  | [], _ => []
  | o :: rest, 0 => f o :: rest
  | o :: rest, Nat.succ j => o :: updateOrb rest j f

/-- Operation `MagicEditor.create_orb`: checks `player.mana < 10` (raising
`RuntimeError("Not enough mana to create orb")`), spends 10 mana, creates an
orb at `player.node.getPos() + Vec3(0, 2, 1)` with velocity `force_value`,
appends it to `self.orbs`, and returns it (modelled as its index). -/
def create_orb (force : Vec3) (s : GameState) : Except String (GameState × Nat) :=
  if s.mana < 10 then
    Except.error "Not enough mana to create orb"
  else
    Except.ok
      ({ s with
          mana := s.mana - 10
          orbs := s.orbs ++ [⟨Vec3.add s.playerPos orbOffset, force, none⟩] },
        s.orbs.length)

/-- Operation `MagicEditor.use_fire`: checks `player.fire < 5` (raising
`RuntimeError("Not enough fire energy")`), spends 5 fire, sets
`orb.element = "fire"` (the `setColor` visual marker is out of core scope). -/
def use_fire (i : Nat) (s : GameState) : Except String GameState :=
  if s.fire < 5 then
    Except.error "Not enough fire energy"
  else
    Except.ok
      { s with
          fire := s.fire - 5
          orbs := updateOrb s.orbs i fun o => { o with element := some Element.fire } }

/-- Operation `MagicEditor.use_water`: checks `player.water < 5` (raising
`RuntimeError("Not enough water energy")`), spends 5 water, sets
`orb.element = "water"`. -/
def use_water (i : Nat) (s : GameState) : Except String GameState :=
  if s.water < 5 then
    Except.error "Not enough water energy"
  else
    Except.ok
      { s with
          water := s.water - 5
          orbs := updateOrb s.orbs i fun o => { o with element := some Element.water } }

/-- Target of `apply_force_to`: any Entity — the player, its body parts, or
an orb. -/
inductive Target where
  | player
  | hands
  | feet
  | orb (i : Nat)
deriving DecidableEq

/-- Operation `MagicEditor.apply_force_to`: unconditionally `entity.velocity += force`,
no resource cost. -/
def apply_force_to (t : Target) (force : Vec3) (s : GameState) : GameState :=
  match t with
  | Target.player => { s with playerVel := Vec3.add s.playerVel force }
  | Target.hands => { s with handsVel := Vec3.add s.handsVel force }
  | Target.feet => { s with feetVel := Vec3.add s.feetVel force }
  | Target.orb i =>
      { s with orbs := updateOrb s.orbs i fun o => { o with vel := Vec3.add o.vel force } }

/-- Append a callback to the list for `ev`, creating the entry if absent —
the `defaultdict(list)` + `append` behaviour of `on_event`. Generic in the
callback type so both the `Nat`-identity model in `GameState` and the
executable event-bus model share it. -/
def addHandler {β : Type} (hs : List (String × List β)) (ev : String) (cb : β) :
    List (String × List β) :=
  match hs with
  | [] => [(ev, [cb])]
  | (e, l) :: rest =>
      if e = ev then (e, l ++ [cb]) :: rest else (e, l) :: addHandler rest ev cb

/-- Operation `MagicEditor.on_event`: `self.event_handlers[event_type].append(callback)`. -/
def on_event (ev : String) (cb : Nat) (s : GameState) : GameState :=
  { s with handlers := addHandler s.handlers ev cb }

/-- One emitted event: the event name, the orb argument exactly as it stands
at the moment `trigger_event` is called inside `update_physics` (position
already clamped, velocity not yet zeroed), and the name of the second
argument (always the ground entity). -/
structure Emission where
  event : String
  orbArg : Orb
  targetName : String
deriving DecidableEq

/-- One `update_physics` iteration for a single orb, line by line:
`orb.node.setPos(getPos() + velocity * dt)`; `orb.velocity *= 0.98`; then
`if orb.node.getZ() <= 0:` clamp `setZ(0)`, `trigger_event("impact", orb,
self.ground)` (the orb argument at this point has the clamped position and
the damped, not-yet-zeroed velocity), and finally `orb.velocity = Vec3(0, 0, 0)`. -/
def stepOrb (dt : ℚ) (o : Orb) : Orb × List Emission :=
  let pos1 := Vec3.add o.pos (Vec3.smul dt o.vel)
  let vel1 := Vec3.smul (49/50) o.vel
  if pos1.z ≤ 0 then
    let posC : Vec3 := ⟨pos1.x, pos1.y, 0⟩
    (⟨posC, Vec3.zero, o.element⟩,
      [⟨"impact", ⟨posC, vel1, o.element⟩, "ground"⟩])
  else
    (⟨pos1, vel1, o.element⟩, [])

/-- Tick function `MagicEditor.update_physics`: advances every orb of `self.orbs` by
`stepOrb` and collects the `impact` emissions in orb order. Per §9 the tick
is a pure step plus an event list; feeding each emission to the event-bus
`trigger_event` model below reproduces the inline dispatch of the source. -/
def update_physics (dt : ℚ) (s : GameState) : GameState × List Emission :=
  let stepped := s.orbs.map (stepOrb dt)
  ({ s with orbs := stepped.map Prod.fst },
    stepped.foldr (fun p acc => p.2 ++ acc) [])

/-- A raw event callback: given the dispatch arguments and the world it
mutates, it returns the world as mutated by its body together with `none` if
it returned normally or `some msg` if it raised after those mutations. -/
def Cb (α σ : Type) : Type := α → σ → σ × Option String

/-- Event-handler registry with executable callbacks, mirroring
`self.event_handlers : Dict[str, List[Callable]]`. -/
def Handlers (α σ : Type) : Type := List (String × List (Cb α σ))

/-- Lookup `self.event_handlers.get(event_type, [])` — generic in the
callback type, like `addHandler`. -/
def getHandlers {β : Type} (hs : List (String × List β)) (ev : String) : List β :=
  match hs with
  | [] => []
  | (e, l) :: rest => if e = ev then l else getHandlers rest ev

/-- Printed output of the `except` clause of `trigger_event` for one
callback: nothing on normal return, one `Error in event handler:` line when
the callback raised. -/
def errLog : Option String → List String
  | none => []
  | some e => ["Error in event handler: " ++ e]

/-- One iteration of the `trigger_event` loop: `try: cb(*args) except
Exception as exc: print(f"Error in event handler: ...")`. The world advances
to whatever the callback produced; a raised message is appended to the
printed log and swallowed. -/
def runCb {α σ : Type} (arg : α) (st : σ × List String) (cb : Cb α σ) :
    σ × List String :=
  ((cb arg st.1).1, st.2 ++ errLog (cb arg st.1).2)

/-- Dispatch `MagicEditor.trigger_event`: iterate the registered callbacks for
`event_type` in list (= registration) order, isolating each failure. Returns
the final world and the log of printed handler errors; it never raises. -/
def trigger_event {α σ : Type} (hs : Handlers α σ) (ev : String) (arg : α)
    (w : σ) : σ × List String :=
  (getHandlers hs ev).foldl (runCb arg) (w, [])

/-- One statement of a spell script as executed by `exec` inside
`cast_spell`: it transforms the game state and either returns normally or
raises with a message (the spell API operations above are statements of this
type; so is any other statement the restricted namespace admits). -/
def Stmt : Type := GameState → Except String GameState

/-- Sequential execution of the statements of a script, as `exec` performs
it: statements run in order until one raises; the raising statement aborts
the rest of the script, and the state reached so far is kept (no rollback). -/
def runScript (script : List Stmt) (s : GameState) : GameState × Option String :=
  match script with
  | [] => (s, none)
  | stmt :: rest =>
      match stmt s with
      | Except.ok s' => runScript rest s'
      | Except.error e => (s, some e)

/-- Entry point `MagicEditor.cast_spell`: run the script under `try`; on normal
completion set the status message to `"Spell cast successfully"`, on any
exception catch it and set `"Error: " ++ msg`. The state mutated so far is
kept either way. -/
def cast_spell (script : List Stmt) (s : GameState) : GameState × String :=
  match runScript script s with
  | (s', none) => (s', "Spell cast successfully")
  | (s', some e) => (s', "Error: " ++ e)

/-- Statement form of `create_orb`, as a script statement (the returned orb reference is the
index of the new orb; a script binding `orb = create_orb(...)` uses it in
later statements as an index). -/
def stmtCreateOrb (force : Vec3) : Stmt := fun s =>
  (create_orb force s).map Prod.fst

/-- Statement form of `use_fire(orb)`. -/
def stmtUseFire (i : Nat) : Stmt := fun s => use_fire i s

/-- Statement form of `use_water(orb)`. -/
def stmtUseWater (i : Nat) : Stmt := fun s => use_water i s

/-- The core operations of the claim C9 closure: every mutation of the
resource ledger / entity store reachable from scripts, callbacks or the tick
driver is a sequence of these. -/
inductive Op where
  | createOrb (force : Vec3)
  | useFire (i : Nat)
  | useWater (i : Nat)
  | applyForce (t : Target) (force : Vec3)
  | onEvent (ev : String) (cb : Nat)
  | tick (dt : ℚ)
deriving DecidableEq

/-- Run one operation with the catch-at-the-boundary semantics of the
sandbox: a raising operation reports its message and leaves the state
exactly as it was (the source checks before mutating). -/
def runOp (op : Op) (s : GameState) : GameState × Option String :=
  match op with
  | Op.createOrb f =>
      match create_orb f s with
      | Except.ok (s', _) => (s', none)
      | Except.error e => (s, some e)
  | Op.useFire i =>
      match use_fire i s with
      | Except.ok s' => (s', none)
      | Except.error e => (s, some e)
  | Op.useWater i =>
      match use_water i s with
      | Except.ok s' => (s', none)
      | Except.error e => (s, some e)
  | Op.applyForce t f => (apply_force_to t f s, none)
  | Op.onEvent ev cb => (on_event ev cb s, none)
  | Op.tick dt => ((update_physics dt s).1, none)

/-- Run a sequence of operations, each one either applying or being rejected
with the state kept. -/
def runOps (ops : List Op) (s : GameState) : GameState :=
  ops.foldl (fun s op => (runOp op s).1) s

/-- The resource-ledger invariant: mana, fire, water never negative. -/
def NonnegRes (s : GameState) : Prop :=
  0 ≤ s.mana ∧ 0 ≤ s.fire ∧ 0 ≤ s.water

instance (s : GameState) : Decidable (NonnegRes s) := by
  unfold NonnegRes; infer_instance

/-! Helper lemmas. -/

theorem updateOrb_get? (l : List Orb) (i : Nat) (f : Orb → Orb) :
    (updateOrb l i f).get? i = (l.get? i).map f := by
  induction l generalizing i with
  | nil => simp [updateOrb]
  | cons o rest ih =>
      cases i with
      | zero => simp [updateOrb]
      | succ j => simpa [updateOrb] using ih j

theorem getHandlers_addHandler {β : Type} (hs : List (String × List β))
    (ev ev' : String) (cb : β) :
    getHandlers (addHandler hs ev cb) ev' =
      if ev' = ev then getHandlers hs ev' ++ [cb] else getHandlers hs ev' := by
  induction hs with
  | nil =>
      by_cases h : ev' = ev
      · subst h; simp [addHandler, getHandlers]
      · simp [addHandler, getHandlers, h, Ne.symm h]
  | cons p rest ih =>
      obtain ⟨e, l⟩ := p
      by_cases h1 : e = ev
      · subst h1
        by_cases h2 : ev' = e
        · subst h2; simp [addHandler, getHandlers]
        · simp [addHandler, getHandlers, h2, Ne.symm h2]
      · by_cases h2 : e = ev'
        · subst h2
          simp [addHandler, getHandlers, h1, Ne.symm h1]
        · simp [addHandler, getHandlers, h1, h2, ih]

theorem runScript_append (pre rest : List Stmt) (s s' : GameState)
    (h : runScript pre s = (s', none)) :
    runScript (pre ++ rest) s = runScript rest s' := by
  induction pre generalizing s with
  | nil =>
      simp only [runScript] at h
      injection h with h1 h2
      subst h1
      rfl
  | cons stmt pre ih =>
      simp only [List.cons_append, runScript]
      simp only [runScript] at h
      cases hst : stmt s with
      | ok s1 => rw [hst] at h; exact ih s1 h
      | error e => rw [hst] at h; simp at h

theorem runOps_cons (op : Op) (ops : List Op) (s : GameState) :
    runOps (op :: ops) s = runOps ops (runOp op s).1 := rfl

theorem runOp_preserves_nonneg (op : Op) (s : GameState) (h : NonnegRes s) :
    NonnegRes (runOp op s).1 := by
  obtain ⟨hm, hf, hw⟩ := h
  cases op with
  | createOrb f =>
      by_cases hc : s.mana < 10 <;>
        simp [runOp, create_orb, hc, NonnegRes, hm, hf, hw] <;> omega
  | useFire i =>
      by_cases hc : s.fire < 5 <;>
        simp [runOp, use_fire, hc, NonnegRes, hm, hf, hw] <;> omega
  | useWater i =>
      by_cases hc : s.water < 5 <;>
        simp [runOp, use_water, hc, NonnegRes, hm, hf, hw] <;> omega
  | applyForce t f =>
      cases t <;> exact ⟨hm, hf, hw⟩
  | onEvent ev cb => exact ⟨hm, hf, hw⟩
  | tick dt => exact ⟨hm, hf, hw⟩

theorem runOps_preserves_nonneg (ops : List Op) (s : GameState) (h : NonnegRes s) :
    NonnegRes (runOps ops s) := by
  induction ops generalizing s with
  | nil => exact h
  | cons op ops ih => exact ih _ (runOp_preserves_nonneg op s h)

/-- C1: each resource-spending operation (`create_orb` / mana 10, `use_fire`
/ fire 5, `use_water` / water 5) fails with its `InsufficientResource`
message and leaves the whole state unchanged when the balance is below the
threshold, and otherwise succeeds decrementing the spent balance by exactly
the cost while leaving the other balances unchanged. -/
theorem C1_spend_guard (s : GameState) (f : Vec3) (i : Nat) :
    (s.mana < 10 →
      runOp (Op.createOrb f) s = (s, some "Not enough mana to create orb")) ∧
    (10 ≤ s.mana →
      (runOp (Op.createOrb f) s).2 = none ∧
      (runOp (Op.createOrb f) s).1.mana = s.mana - 10 ∧
      (runOp (Op.createOrb f) s).1.fire = s.fire ∧
      (runOp (Op.createOrb f) s).1.water = s.water) ∧
    (s.fire < 5 →
      runOp (Op.useFire i) s = (s, some "Not enough fire energy")) ∧
    (5 ≤ s.fire →
      (runOp (Op.useFire i) s).2 = none ∧
      (runOp (Op.useFire i) s).1.fire = s.fire - 5 ∧
      (runOp (Op.useFire i) s).1.mana = s.mana ∧
      (runOp (Op.useFire i) s).1.water = s.water) ∧
    (s.water < 5 →
      runOp (Op.useWater i) s = (s, some "Not enough water energy")) ∧
    (5 ≤ s.water →
      (runOp (Op.useWater i) s).2 = none ∧
      (runOp (Op.useWater i) s).1.water = s.water - 5 ∧
      (runOp (Op.useWater i) s).1.mana = s.mana ∧
      (runOp (Op.useWater i) s).1.fire = s.fire) := by
  refine ⟨?_, ?_, ?_, ?_, ?_, ?_⟩ <;> intro h
  · simp [runOp, create_orb, h]
  · simp [runOp, create_orb, show ¬ s.mana < 10 by omega]
  · simp [runOp, use_fire, h]
  · simp [runOp, use_fire, show ¬ s.fire < 5 by omega]
  · simp [runOp, use_water, h]
  · simp [runOp, use_water, show ¬ s.water < 5 by omega]

/-- Witness for C1 at concrete states: the poor state (mana 5, fire 2,
water 3) rejects all three spends unchanged; the initial state (100/50/50)
accepts all three with exact decrements. -/
theorem C1_spend_guard_witness :
    runOp (Op.createOrb ⟨1, 0, 0⟩) { initState with mana := 5, fire := 2, water := 3 } =
      ({ initState with mana := 5, fire := 2, water := 3 },
        some "Not enough mana to create orb") ∧
    runOp (Op.useFire 0) { initState with mana := 5, fire := 2, water := 3 } =
      ({ initState with mana := 5, fire := 2, water := 3 },
        some "Not enough fire energy") ∧
    runOp (Op.useWater 0) { initState with mana := 5, fire := 2, water := 3 } =
      ({ initState with mana := 5, fire := 2, water := 3 },
        some "Not enough water energy") ∧
    (runOp (Op.createOrb ⟨1, 0, 0⟩) initState).1.mana = initState.mana - 10 ∧
    (runOp (Op.useFire 0) initState).1.fire = initState.fire - 5 ∧
    (runOp (Op.useWater 0) initState).1.water = initState.water - 5 :=
  ⟨(C1_spend_guard { initState with mana := 5, fire := 2, water := 3 } ⟨1, 0, 0⟩ 0).1
      (by decide),
    (C1_spend_guard { initState with mana := 5, fire := 2, water := 3 } ⟨1, 0, 0⟩ 0).2.2.1
      (by decide),
    (C1_spend_guard { initState with mana := 5, fire := 2, water := 3 } ⟨1, 0, 0⟩ 0).2.2.2.2.1
      (by decide),
    ((C1_spend_guard initState ⟨1, 0, 0⟩ 0).2.1 (by decide)).2.1,
    ((C1_spend_guard initState ⟨1, 0, 0⟩ 0).2.2.2.1 (by decide)).2.1,
    ((C1_spend_guard initState ⟨1, 0, 0⟩ 0).2.2.2.2.2 (by decide)).2.1⟩

/-- C9: the resource invariant mana ≥ 0, fire ≥ 0, water ≥ 0 holds in the
initial state (100/50/50), is preserved by every core operation (spends are
rejected below threshold, never clamped negative), and therefore holds in
every state reachable by any sequence of core operations — including the
operations a dispatched callback performs, since those are themselves core
operations. -/
theorem C9_resource_invariant :
    NonnegRes initState ∧
    (∀ (op : Op) (s : GameState), NonnegRes s → NonnegRes (runOp op s).1) ∧
    ∀ ops : List Op, NonnegRes (runOps ops initState) :=
  ⟨by decide,
    fun op s h => runOp_preserves_nonneg op s h,
    fun ops => runOps_preserves_nonneg ops initState (by decide)⟩

/-- Witness for C9: preservation applied at a concrete operation and state. -/
theorem C9_resource_invariant_witness :
    NonnegRes (runOp (Op.createOrb ⟨0, 0, 0⟩) initState).1 :=
  C9_resource_invariant.2.1 (Op.createOrb ⟨0, 0, 0⟩) initState (by decide)

/-- C2: with mana ≥ 10, `create_orb(force)` spends exactly 10 mana, appends
a new orb at the player position plus the fixed offset `Vec3(0, 2, 1)` with
velocity `force` to `self.orbs` — the very list `update_physics` advances,
so the new orb is stepped on the next tick — and returns its reference (its
index); starting from mana = 10 it succeeds exactly once leaving mana = 0,
and a second call then fails with the `InsufficientResource` error. -/
theorem C2_create_orb_spec (s : GameState) (f f2 : Vec3) :
    (10 ≤ s.mana →
      create_orb f s = Except.ok
        ({ s with
            mana := s.mana - 10
            orbs := s.orbs ++ [⟨Vec3.add s.playerPos orbOffset, f, none⟩] },
          s.orbs.length) ∧
      ∀ dt : ℚ,
        (update_physics dt
            { s with
                mana := s.mana - 10
                orbs := s.orbs ++ [⟨Vec3.add s.playerPos orbOffset, f, none⟩] }).1.orbs.get?
            s.orbs.length
          = some (stepOrb dt ⟨Vec3.add s.playerPos orbOffset, f, none⟩).1) ∧
    (s.mana = 10 →
      create_orb f s = Except.ok
        ({ s with
            mana := 0
            orbs := s.orbs ++ [⟨Vec3.add s.playerPos orbOffset, f, none⟩] },
          s.orbs.length) ∧
      create_orb f2
          { s with
              mana := 0
              orbs := s.orbs ++ [⟨Vec3.add s.playerPos orbOffset, f, none⟩] }
        = Except.error "Not enough mana to create orb") := by
  constructor
  · intro h
    constructor
    · simp [create_orb, show ¬ s.mana < 10 by omega]
    · intro dt
      simp only [update_physics, List.map_append, List.map_cons, List.map_nil]
      rw [show s.orbs.length
            = (List.map Prod.fst (List.map (stepOrb dt) s.orbs)).length by simp]
      exact List.get?_concat_length _ _
  · intro h
    have h10 : ¬ s.mana < 10 := by omega
    have h0 : s.mana - 10 = 0 := by omega
    refine ⟨by simp [create_orb, h10, h0], ?_⟩
    norm_num [create_orb]

/-- Witness for C2: the documented scenario at the concrete state with
mana = 10 — one success leaving mana 0, then a rejected second call. -/
theorem C2_create_orb_spec_witness :
    create_orb ⟨10, 0, 15⟩ { initState with mana := 10 } = Except.ok
      ({ initState with
          mana := 0
          orbs := [⟨Vec3.add initState.playerPos orbOffset, ⟨10, 0, 15⟩, none⟩] },
        0) ∧
    create_orb ⟨0, 0, 0⟩
        { initState with
            mana := 0
            orbs := [⟨Vec3.add initState.playerPos orbOffset, ⟨10, 0, 15⟩, none⟩] }
      = Except.error "Not enough mana to create orb" :=
  (C2_create_orb_spec { initState with mana := 10 } ⟨10, 0, 15⟩ ⟨0, 0, 0⟩).2 rfl

/-- C3: with fire ≥ 5, `use_fire(orb)` sets the orb's element to fire and
decreases fire by exactly 5 (mana and water untouched); a subsequent
`use_water(orb)` with water ≥ 5 overwrites the element to water (last write
wins) and decreases water by exactly 5, independently of the earlier fire
spend. -/
theorem C3_element_last_write (s : GameState) (i : Nat) (o : Orb)
    (ho : s.orbs.get? i = some o) (hf : 5 ≤ s.fire) (hw : 5 ≤ s.water) :
    ∃ s1 s2 : GameState,
      use_fire i s = Except.ok s1 ∧
      s1.fire = s.fire - 5 ∧ s1.mana = s.mana ∧ s1.water = s.water ∧
      s1.orbs.get? i = some { o with element := some Element.fire } ∧
      use_water i s1 = Except.ok s2 ∧
      s2.water = s.water - 5 ∧ s2.fire = s.fire - 5 ∧ s2.mana = s.mana ∧
      s2.orbs.get? i = some { o with element := some Element.water } := by
  have h5f : ¬ s.fire < 5 := by omega
  have h5w : ¬ s.water < 5 := by omega
  refine ⟨{ s with
      fire := s.fire - 5
      orbs := updateOrb s.orbs i fun o => { o with element := some Element.fire } },
    { s with
        fire := s.fire - 5
        water := s.water - 5
        orbs := updateOrb
          (updateOrb s.orbs i fun o => { o with element := some Element.fire }) i
          fun o => { o with element := some Element.water } },
    ?_, rfl, rfl, rfl, ?_, ?_, rfl, rfl, rfl, ?_⟩
  · simp [use_fire, h5f]
  · rw [updateOrb_get?, ho]; rfl
  · simp [use_water, h5w]
  · rw [updateOrb_get?, updateOrb_get?, ho]; rfl

/-- Witness for C3 on a singleton-orb state with full reserves. -/
theorem C3_element_last_write_witness :
    ∃ s1 s2 : GameState,
      use_fire 0 { initState with orbs := [⟨⟨0, 0, 1⟩, ⟨1, 2, 3⟩, none⟩] }
        = Except.ok s1 ∧
      s1.fire = 45 ∧
      s1.orbs.get? 0 = some ⟨⟨0, 0, 1⟩, ⟨1, 2, 3⟩, some Element.fire⟩ ∧
      use_water 0 s1 = Except.ok s2 ∧
      s2.water = 45 ∧
      s2.orbs.get? 0 = some ⟨⟨0, 0, 1⟩, ⟨1, 2, 3⟩, some Element.water⟩ := by
  obtain ⟨s1, s2, h1, h2, -, -, h5, h6, h7, -, -, h10⟩ :=
    C3_element_last_write { initState with orbs := [⟨⟨0, 0, 1⟩, ⟨1, 2, 3⟩, none⟩] }
      0 ⟨⟨0, 0, 1⟩, ⟨1, 2, 3⟩, none⟩ rfl (by decide) (by decide)
  exact ⟨s1, s2, h1, h2, h5, h6, h7, h10⟩

/-- C4: one physics step for an orb performs, in this exact order,
`position += velocity * dt` with the pre-damping velocity and then
`velocity *= 0.98` as a fixed per-tick factor not scaled by `dt` (the x and
y position components always receive the full undamped displacement, and
away from the ground the whole step is exactly displacement followed by the
dt-independent damping factor 49/50). -/
theorem C4_step_order (dt : ℚ) (o : Orb) :
    ((stepOrb dt o).1.pos.x = o.pos.x + dt * o.vel.x ∧
      (stepOrb dt o).1.pos.y = o.pos.y + dt * o.vel.y) ∧
    (0 < o.pos.z + dt * o.vel.z →
      stepOrb dt o =
        (⟨Vec3.add o.pos (Vec3.smul dt o.vel), Vec3.smul (49/50) o.vel, o.element⟩,
          [])) := by
  constructor
  · by_cases h : o.pos.z + dt * o.vel.z ≤ 0 <;>
      constructor <;> simp [stepOrb, Vec3.add, Vec3.smul, h]
  · intro h
    have h' : ¬ (o.pos.z + dt * o.vel.z ≤ 0) := by exact not_le.mpr h
    simp [stepOrb, Vec3.add, Vec3.smul, h']

/-- Witness for C4: the spec's example — velocity (0, 0, −5), dt = 1 — the
orb moves by the full pre-damping velocity (z from 10 to 5) and only then
the velocity is damped to (0, 0, −4.9). -/
theorem C4_step_order_witness :
    stepOrb 1 ⟨⟨0, 0, 10⟩, ⟨0, 0, -5⟩, none⟩ =
      (⟨Vec3.add ⟨0, 0, 10⟩ (Vec3.smul 1 ⟨0, 0, -5⟩),
          Vec3.smul (49/50) ⟨0, 0, -5⟩, none⟩, []) :=
  (C4_step_order 1 ⟨⟨0, 0, 10⟩, ⟨0, 0, -5⟩, none⟩).2
    (by show (0 : ℚ) < 10 + 1 * (-5); norm_num)

/-- Counterexample to C5 as stated: an orb that fell to the ground on the
first tick (ending at rest: height 0, velocity zero) dispatches `impact`
AGAIN on the second tick — the `<= 0` height test re-fires for an orb at
rest, so it is not true that a rested orb causes no further impact
dispatches on later ticks. -/
theorem C5_rest_retrigger_counterexample :
    (update_physics 1 { initState with orbs := [⟨⟨0, 0, 1⟩, ⟨0, 0, -2⟩, none⟩] }).1.orbs
      = [⟨⟨0, 0, 0⟩, Vec3.zero, none⟩] ∧
    (update_physics 1 (update_physics 1
        { initState with orbs := [⟨⟨0, 0, 1⟩, ⟨0, 0, -2⟩, none⟩] }).1).2 ≠ [] := by
  constructor <;>
    norm_num [update_physics, stepOrb, Vec3.add, Vec3.smul, Vec3.zero, initState]

/-- C5 amended: on every tick in which an orb's post-update height is ≤ 0,
the tick clamps the height to 0, zeroes the velocity, and dispatches exactly
one `impact` event for that orb with the (orb, ground) arguments — but this
happens per tick, not once per run: the resulting rested orb is a fixed
point of the step that re-dispatches `impact` on every subsequent tick. -/
theorem C5_impact_per_tick (dt : ℚ) (o : Orb) (h : o.pos.z + dt * o.vel.z ≤ 0) :
    (stepOrb dt o).1.pos.z = 0 ∧
    (stepOrb dt o).1.vel = Vec3.zero ∧
    (stepOrb dt o).2 =
      [⟨"impact",
          ⟨⟨o.pos.x + dt * o.vel.x, o.pos.y + dt * o.vel.y, 0⟩,
            Vec3.smul (49/50) o.vel, o.element⟩, "ground"⟩] ∧
    ∀ dt' : ℚ,
      (stepOrb dt' (stepOrb dt o).1).1 = (stepOrb dt o).1 ∧
      (stepOrb dt' (stepOrb dt o).1).2 ≠ [] := by
  have hstep : stepOrb dt o =
      (⟨⟨o.pos.x + dt * o.vel.x, o.pos.y + dt * o.vel.y, 0⟩, Vec3.zero, o.element⟩,
        [⟨"impact",
            ⟨⟨o.pos.x + dt * o.vel.x, o.pos.y + dt * o.vel.y, 0⟩,
              Vec3.smul (49/50) o.vel, o.element⟩, "ground"⟩]) := by
    simp [stepOrb, Vec3.add, Vec3.smul, h]
  refine ⟨by rw [hstep], by rw [hstep], by rw [hstep], ?_⟩
  intro dt'
  rw [hstep]
  constructor
  · simp [stepOrb, Vec3.zero, Vec3.add, Vec3.smul]
  · simp [stepOrb, Vec3.zero, Vec3.add, Vec3.smul]

/-- Witness for C5 (amended): the falling orb comes to rest on tick one and
still emits an impact on a later tick. -/
theorem C5_impact_per_tick_witness :
    (stepOrb 1 ⟨⟨0, 0, 1⟩, ⟨0, 0, -2⟩, none⟩).1.vel = Vec3.zero ∧
    (stepOrb 2 (stepOrb 1 ⟨⟨0, 0, 1⟩, ⟨0, 0, -2⟩, none⟩).1).2 ≠ [] :=
  ⟨(C5_impact_per_tick 1 ⟨⟨0, 0, 1⟩, ⟨0, 0, -2⟩, none⟩
      (by show (1 : ℚ) + 1 * (-2) ≤ 0; norm_num)).2.1,
    ((C5_impact_per_tick 1 ⟨⟨0, 0, 1⟩, ⟨0, 0, -2⟩, none⟩
      (by show (1 : ℚ) + 1 * (-2) ≤ 0; norm_num)).2.2.2 2).2⟩

/-- C6: `on_event` registration appends to the per-event callback list (and
touches no other event's list), and `trigger_event` invokes the registered
callbacks synchronously in registration order — registering A then B always
runs A before B (B sees the world A produced) — while a callback that raises
is caught: its message is logged with the `Error in event handler:` prefix,
dispatch continues with the next callback, and `trigger_event` itself
returns normally rather than propagating the failure to its caller. -/
theorem C6_dispatch_order_isolation {α σ : Type} (ev ev' : String) (arg : α)
    (w : σ) :
    (∀ (hs : Handlers α σ) (cb : Cb α σ),
      getHandlers (addHandler hs ev cb) ev' =
        if ev' = ev then getHandlers hs ev' ++ [cb] else getHandlers hs ev') ∧
    (∀ (hs : Handlers α σ) (cb : Cb α σ),
      trigger_event (addHandler hs ev cb) ev arg w =
        runCb arg (trigger_event hs ev arg w) cb) ∧
    (∀ (hs : Handlers α σ) (A B : Cb α σ),
      getHandlers hs ev = [] →
      trigger_event (addHandler (addHandler hs ev A) ev B) ev arg w =
        ((B arg (A arg w).1).1,
          errLog (A arg w).2 ++ errLog (B arg (A arg w).1).2)) := by
  refine ⟨?_, ?_, ?_⟩
  · intro hs cb
    exact getHandlers_addHandler hs ev ev' cb
  · intro hs cb
    simp only [trigger_event, getHandlers_addHandler, if_pos rfl, if_true,
      List.foldl_append, List.foldl_cons, List.foldl_nil]
  · intro hs A B h
    have h1 : getHandlers (addHandler (addHandler hs ev A) ev B) ev = [A, B] := by
      rw [getHandlers_addHandler, if_pos rfl, getHandlers_addHandler, if_pos rfl, h]
      rfl
    simp only [trigger_event, h1, List.foldl_cons, List.foldl_nil, runCb]
    simp

/-- Witness for C6: an empty bus, callback A (adds one, then raises "boom")
registered before callback B (doubles): dispatch runs A then B on A's
result — (3 + 1) * 2 = 8 — and A's failure is logged, not propagated. -/
theorem C6_dispatch_order_isolation_witness :
    trigger_event
        (addHandler
          (addHandler ([] : Handlers Nat ℤ) "impact" fun _ n => (n + 1, some "boom"))
          "impact" fun _ n => (n * 2, none))
        "impact" 0 3 =
      (8, ["Error in event handler: boom"]) := by
  have h := (C6_dispatch_order_isolation "impact" "impact" (0 : Nat) (3 : ℤ)).2.2
    ([] : Handlers Nat ℤ) (fun _ n => (n + 1, some "boom")) (fun _ n => (n * 2, none))
    rfl
  exact h.trans (by decide)

/-- C7: sandboxed script execution with a fault at any statement surfaces
the failure as the `Error:`-prefixed status message instead of propagating,
and keeps every state mutation the statements before the fault performed (no
rollback); a script that completes reports the success status. -/
theorem C7_fault_keeps_partial_effects (pre post : List Stmt) (f : Stmt)
    (s s' : GameState) (e : String)
    (hpre : runScript pre s = (s', none)) (hf : f s' = Except.error e) :
    cast_spell (pre ++ f :: post) s = (s', "Error: " ++ e) ∧
    ∀ (script : List Stmt) (s2 s2' : GameState),
      runScript script s2 = (s2', none) →
      cast_spell script s2 = (s2', "Spell cast successfully") := by
  constructor
  · have h1 : runScript (pre ++ f :: post) s = (s', some e) := by
      rw [runScript_append pre (f :: post) s s' hpre]
      simp [runScript, hf]
    simp [cast_spell, h1]
  · intro script s2 s2' h2
    simp [cast_spell, h2]

/-- Witness for C7: the script `use_fire; create_orb; use_water` run with
mana 5 — the fire spend persists, `create_orb` faults with the
insufficient-mana message surfaced as the error status, `use_water` never
runs. -/
theorem C7_fault_keeps_partial_effects_witness :
    cast_spell [stmtUseFire 0, stmtCreateOrb ⟨0, 0, 0⟩, stmtUseWater 0]
        { initState with mana := 5 } =
      ({ initState with mana := 5, fire := 45 },
        "Error: " ++ "Not enough mana to create orb") :=
  (C7_fault_keeps_partial_effects [stmtUseFire 0] [stmtUseWater 0]
    (stmtCreateOrb ⟨0, 0, 0⟩) { initState with mana := 5 }
    { initState with mana := 5, fire := 45 } "Not enough mana to create orb"
    rfl rfl).1

/-- C10 (implicit): when a ground collision dispatches `impact`, the orb
argument handed to the callbacks carries the damped pre-impact velocity —
non-zero whenever the orb still had velocity — because `trigger_event` runs
before `orb.velocity = Vec3(0, 0, 0)`; only the post-dispatch state of the
orb has the zero velocity. -/
theorem C10_callbacks_see_predamped_velocity (dt : ℚ) (o : Orb)
    (h : o.pos.z + dt * o.vel.z ≤ 0) :
    (stepOrb dt o).2.map (fun em => em.orbArg.vel) = [Vec3.smul (49/50) o.vel] ∧
    (stepOrb dt o).1.vel = Vec3.zero ∧
    (o.vel ≠ Vec3.zero → Vec3.smul (49/50) o.vel ≠ Vec3.zero) := by
  have hc : (Vec3.add o.pos (Vec3.smul dt o.vel)).z ≤ 0 := by
    simpa [Vec3.add, Vec3.smul] using h
  refine ⟨by simp [stepOrb, hc], by simp [stepOrb, hc], ?_⟩
  intro hnz hz
  apply hnz
  cases hv : o.vel with
  | mk vx vy vz =>
      rw [hv] at hz
      norm_num [Vec3.smul, Vec3.zero] at hz
      obtain ⟨h1, h2, h3⟩ := hz
      simp [Vec3.zero, h1, h2, h3]

/-- Witness for C10: the falling orb of the C5 scenario — the dispatched
velocity is the damped (0, 0, −1.96), not the zero vector the orb is left
with. -/
theorem C10_callbacks_see_predamped_velocity_witness :
    (stepOrb 1 ⟨⟨0, 0, 1⟩, ⟨0, 0, -2⟩, none⟩).2.map (fun em => em.orbArg.vel)
      = [Vec3.smul (49/50) ⟨0, 0, -2⟩] ∧
    (stepOrb 1 ⟨⟨0, 0, 1⟩, ⟨0, 0, -2⟩, none⟩).1.vel = Vec3.zero ∧
    Vec3.smul (49/50) ⟨0, 0, -2⟩ ≠ Vec3.zero := by
  have h := C10_callbacks_see_predamped_velocity 1 ⟨⟨0, 0, 1⟩, ⟨0, 0, -2⟩, none⟩
    (by show (1 : ℚ) + 1 * (-2) ≤ 0; norm_num)
  exact ⟨h.1, h.2.1, h.2.2 (by norm_num [Vec3.zero])⟩

end ArcaneEditor
